import Mathlib

/-!
Verification of the btc-etl ingestion pipeline (`btc_etl.py`, `utils.py`).

The Python source is shallowly embedded: pure helpers become Lean
functions; I/O outcomes (CSV read results, the Redis server's behaviour,
ping success) become explicit parameters; a raised Python exception
becomes an `Except.error`; the thread-local Redis-connection cache
becomes explicit state passing of a `ThreadLocal` value.  String
processing is modelled on `List Char` (Python `str` slicing and splitting
are code-point based) so that every definition evaluates by kernel
reduction.
-/

/-- A calendar date `(year, month, day)` as produced by
`datetime.strptime(s, "%Y-%m-%d")`. -/
def Date := Nat × Nat × Nat

deriving instance DecidableEq for Date

/-- A time of day `(hour, minute, second)` as produced by
`datetime.strptime(s, "%H:%M:%S").time()`. -/
def TimeOfDay := Nat × Nat × Nat

deriving instance DecidableEq for TimeOfDay

/-- Python `str.split(sep)` for a one-character separator: splitting the
empty string gives `[""]`, and each separator occurrence opens a new
group. -/
def splitOnChar (sep : Char) : List Char → List (List Char)
  | [] => [[]]
  | c :: cs =>
    match splitOnChar sep cs with
    | [] => [[]]
    | g :: gs => if c == sep then [] :: g :: gs else (c :: g) :: gs

/-- Numeric value of a decimal digit string (callers check digits first). -/
def digits_to_nat (l : List Char) : Nat :=
  l.foldl (fun acc c => acc * 10 + (c.toNat - 48)) 0

/-- A field of `lo` to `hi` decimal digits, as matched by the regexes
CPython compiles for `strptime` directives. -/
def parse_digit_field (l : List Char) (lo hi : Nat) : Option Nat :=
  if decide (lo ≤ l.length) && decide (l.length ≤ hi) && l.all Char.isDigit then
    some (digits_to_nat l)
  else none

/-- Gregorian leap-year rule used by `datetime`. -/
def is_leap_year (y : Nat) : Bool :=
  y % 4 == 0 && (y % 100 != 0 || y % 400 == 0)

/-- Number of days in a month, as enforced by the `datetime` constructor. -/
def days_in_month (y m : Nat) : Nat :=
  if m == 2 then (if is_leap_year y then 29 else 28)
  else if m == 4 || m == 6 || m == 9 || m == 11 then 30
  else 31

/-- Model of CPython `datetime.strptime(s, "%Y-%m-%d")`.

CPython compiles the format to the anchored pattern
`\d\d\d\d-(1[0-2]|0[1-9]|[1-9])-(3[01]|[12]\d|0[1-9]|[1-9])` requiring the
whole string to be consumed, then builds a `datetime`, which additionally
requires `1 <= year` and `day <= days_in_month`.  Equivalently: split on
the dashes, require a 4-digit year and 1-2 digit month/day fields, and
check calendar validity.  Returns `none` where CPython raises
`ValueError`. -/
def parse_iso_date (l : List Char) : Option Date :=
  match splitOnChar '-' l with
  | [ys, ms, ds] =>
    match parse_digit_field ys 4 4, parse_digit_field ms 1 2, parse_digit_field ds 1 2 with
    | some y, some m, some d =>
      if 1 ≤ y && 1 ≤ m && m ≤ 12 && 1 ≤ d && d ≤ days_in_month y m then
        some (y, m, d)
      else none
    | _, _, _ => none
  | _ => none

/-- Model of CPython `datetime.strptime(s, "%H:%M:%S").time()`: three
colon-separated fields of 1-2 digits with `hour <= 23`, `minute <= 59`,
`second <= 59` (the `%S` regex also admits 60-61, but the `datetime`
constructor then raises, so those inputs fail either way). -/
def parse_time_hms (s : String) : Option TimeOfDay :=
  match splitOnChar ':' s.toList with
  | [hs, ms, ss] =>
    match parse_digit_field hs 1 2, parse_digit_field ms 1 2, parse_digit_field ss 1 2 with
    | some h, some m, some sec =>
      if h ≤ 23 && m ≤ 59 && sec ≤ 59 then some (h, m, sec) else none
    | _, _, _ => none
  | _ => none

/-- Python `str.endswith(p)`. -/
def endsWithList (l p : List Char) : Bool :=
  l.drop (l.length - p.length) == p

/-- `utils.is_valid_filename`: checks `filename[0:7] == "btcusd-"` and that
`filename[7:17]` parses with `strptime("%Y-%m-%d")`; any `ValueError` is
caught and yields `False`.  Note the source never inspects what follows
position 17, nor that the name ends in `.csv`. -/
def is_valid_filename (filename : String) : Bool :=
  if filename.toList.take 7 != "btcusd-".toList then false
  else (parse_iso_date ((filename.toList.drop 7).take 10)).isSome

/-- `utils.extract_date_from_filename`: parses `filename[7:17]` with
`strptime("%Y-%m-%d")`; `none` models the `ValueError` it raises on
malformed input. -/
def extract_date_from_filename (filename : String) : Option Date :=
  parse_iso_date ((filename.toList.drop 7).take 10)

/-- Numeric key for sorting by embedded file date, matching comparison of
the `datetime` values returned by `extract_date_from_filename` (the sort
in `process_existing_files` only ever applies it to validated names, where
the parse succeeds). -/
def dateKey (filename : String) : Nat :=
  match extract_date_from_filename filename with
  | some (y, m, d) => y * 10000 + m * 100 + d
  | none => 0

/-- Ordering on filenames by embedded date, as used by
`sorted(files, key=extract_date_from_filename)`. -/
def dateLe (a b : String) : Prop := dateKey a ≤ dateKey b

instance : DecidableRel dateLe := fun a b => Nat.decLe (dateKey a) (dateKey b)

instance : IsTotal String dateLe := ⟨fun a b => Nat.le_total (dateKey a) (dateKey b)⟩

instance : IsTrans String dateLe := ⟨fun _ _ _ h1 h2 => Nat.le_trans h1 h2⟩

/-- The candidate list built at the top of `process_existing_files`:
`[f for f in os.listdir(DATA_DIRECTORY) if f.endswith('.csv') and is_valid_filename(f)]`
then `sorted(files, key=extract_date_from_filename)`.  Python `sorted` and
`List.insertionSort` are both stable sorts, hence extensionally equal on
the same key. -/
def listCandidates (entries : List String) : List String :=
  List.insertionSort dateLe
    (entries.filter (fun f => endsWithList f.toList ".csv".toList && is_valid_filename f))

/-! ### Dedup ledger client (`utils.is_processed`, `utils.mark_file_as_processed`) -/

/-- Exception classes relevant to the ledger client:
`redis.exceptions.ConnectionError` versus every other exception type
(e.g. `redis.exceptions.TimeoutError`, `ResponseError`), which in the
redis client library are not subclasses of `ConnectionError`. -/
inductive RedisErr where
  | connectionError
  | otherError (e : String)
deriving DecidableEq

/-- Behaviour of the remote Redis set during one call through a given
connection: reachable with membership set `s`, unreachable (the call
raises `ConnectionError`), or raising some other exception. -/
inductive LedgerState where
  | up (s : List String)
  | down
  | failing (e : String)

/-- The remote `SISMEMBER processed_files <path>` call made through
`redis_conn.sismember`; `Except.error` models a raised exception. -/
def sismember (lg : LedgerState) (path : String) : Except RedisErr Bool :=
  match lg with
  | .up s => .ok (s.contains path)
  | .down => .error .connectionError
  | .failing e => .error (.otherError e)

/-- The remote `SADD processed_files <path>` call made through
`redis_conn.sadd`. -/
def sadd (lg : LedgerState) (path : String) : Except RedisErr Unit :=
  match lg with
  | .up _ => .ok ()
  | .down => .error .connectionError
  | .failing e => .error (.otherError e)

/-- `utils.is_processed(redis_conn, filename)`: the connection argument is
represented by the `LedgerState` describing its behaviour.  The source
wraps only `redis.exceptions.ConnectionError`, printing and returning
`False`; any other exception propagates. -/
def is_processed (lg : LedgerState) (filename : String) : Except RedisErr Bool :=
  match sismember lg filename with
  | .ok b => .ok b
  | .error .connectionError => .ok false
  | .error (.otherError e) => .error (.otherError e)

/-- `utils.mark_file_as_processed(redis_conn, filename)`: catches only
`redis.exceptions.ConnectionError` (printing and returning `None`); any
other exception propagates. -/
def mark_file_as_processed (lg : LedgerState) (filename : String) : Except RedisErr Unit :=
  match sadd lg filename with
  | .ok _ => .ok ()
  | .error .connectionError => .ok ()
  | .error (.otherError e) => .error (.otherError e)

/-! ### Per-thread Redis connection (`btc_etl.get_redis_connection`) -/

/-- One thread's `threading.local()` slot: `none` models
`hasattr(thread_local, "redis_conn") == False`; `some c` models a stored
connection object with identity `c`. -/
structure ThreadLocal where
  redis_conn : Option Nat
deriving DecidableEq

/-- `btc_etl.get_redis_connection`, as a state transformer on the calling
thread's `ThreadLocal`.  `ping_ok` is whether `redis_conn.ping()` would
succeed at this moment.  The source assigns
`thread_local.redis_conn = redis.StrictRedis(...)` (the constructor does
not connect) *before* pinging, so the object is cached even when the ping
raises; on ping failure it logs and re-raises. -/
def get_redis_connection (ping_ok : Bool) (tl : ThreadLocal) :
    Except RedisErr Nat × ThreadLocal :=
  match tl.redis_conn with
  | some c => (.ok c, tl)
  | none =>
    let tl2 : ThreadLocal := ⟨some 0⟩
    if ping_ok then (.ok 0, tl2) else (.error .connectionError, tl2)

/-! ### Row transform and file ETL (`btc_etl.process_file_data`) -/

/-- One CSV row as pandas presents it: each cell is `some` string or
`none` for an empty cell (NaN).  Field names follow the CSV header. -/
structure RawRecord where
  Time : Option String
  Open : Option String
  High : Option String
  Low : Option String
  Close : Option String
  Volume_BTC : Option String
  Volume_Currency : Option String
  Weighted_Price : Option String
deriving DecidableEq

/-- One output row in the database schema produced by the column renaming
in `process_file_data`; numeric cells pass through unchanged (`none`
becomes SQL NULL). -/
structure CanonicalRow where
  date_time : Date × TimeOfDay
  open_price : Option String
  high_price : Option String
  low_price : Option String
  close_price : Option String
  volume_btc : Option String
  volume_currency : Option String
  weighted_price : Option String
deriving DecidableEq

/-- The `dropna(subset=[...], how='all')` condition: every one of the
seven price/volume cells is empty (`Time` is not in the subset). -/
def all_relevant_empty (r : RawRecord) : Bool :=
  r.Open.isNone && r.High.isNone && r.Low.isNone && r.Close.isNone
    && r.Volume_BTC.isNone && r.Volume_Currency.isNone && r.Weighted_Price.isNone

/-- The per-row body of
`df['Time'].apply(lambda x: datetime.combine(file_date, datetime.strptime(x, "%H:%M:%S").time()))`
together with the renaming/selection that follows: requires a present,
`%H:%M:%S`-parseable time cell and otherwise raises (an empty cell is a
float NaN, so `strptime` raises `TypeError`; a malformed string raises
`ValueError` — the spec's `SchemaError` taxonomy). -/
def transform (fileDate : Date) (r : RawRecord) : Except String CanonicalRow :=
  match r.Time with
  | none => .error "SchemaError: missing time field"
  | some t =>
    match parse_time_hms t with
    | none => .error "SchemaError: time does not match HH:MM:SS"
    | some tod =>
      .ok ⟨(fileDate, tod), r.Open, r.High, r.Low, r.Close,
           r.Volume_BTC, r.Volume_Currency, r.Weighted_Price⟩

/-- `apply` evaluates the lambda row by row; the first exception aborts
the whole dataframe operation. -/
def apply_rows (fileDate : Date) : List RawRecord → Except String (List CanonicalRow)
  | [] => .ok []
  | r :: rs =>
    match transform fileDate r with
    | .error e => .error e
    | .ok row =>
      match apply_rows fileDate rs with
      | .error e => .error e
      | .ok rows => .ok (row :: rows)

/-- The parsed CSV contents handed to the transform stage:
`has_time_column` is whether `'Time' in df.columns`. -/
structure CsvFile where
  has_time_column : Bool
  records : List RawRecord

/-- `btc_etl.process_file_data(filepath)` after the I/O boundary: the CSV
has been read into `f` and `filename` is the basename of the path.  In
source order: extract the file date from the name, require the `Time`
column, drop rows whose seven price/volume cells are all empty, transform
each remaining row, and return the batch that a single
`to_sql(..., method='multi')` call would write.  Any raised exception is
re-raised as `RuntimeError` (modelled by `Except.error`); on error nothing
reaches `to_sql`, so no partial batch is written. -/
def process_file_data (filename : String) (f : CsvFile) :
    Except String (List CanonicalRow) :=
  match extract_date_from_filename filename with
  | none => .error "ValueError: date does not match format"
  | some fileDate =>
    if f.has_time_column = false then .error "Missing Time column in CSV file"
    else apply_rows fileDate (f.records.filter (fun r => !all_relevant_empty r))

/-! ### File processor (`btc_etl.process_file`) -/

/-- Observable outcome of one `process_file` call: whether
`mark_file_as_processed` was invoked, and whether an exception escaped to
the caller. -/
structure ProcResult where
  markCalled : Bool
  raised : Bool
deriving DecidableEq

/-- `btc_etl.process_file(filepath)`.  `processOutcome` is the result of
`process_file_data(filepath)` and `connOutcome` the result of this
thread's `get_redis_connection()` call.  The body is one `try` whose
`except Exception` logs and returns, so nothing ever propagates: if the
ETL step raises, the ledger is never touched; if `get_redis_connection`
raises, the mark call is never reached; once `mark_file_as_processed` is
invoked its own outcome cannot un-call it (connection errors are swallowed
inside it, anything else is caught by this same `except`). -/
def process_file (processOutcome : Except String Unit)
    (connOutcome : Except RedisErr Nat) : ProcResult :=
  match processOutcome with
  | .error _ => ⟨false, false⟩
  | .ok _ =>
    match connOutcome with
    | .error _ => ⟨false, false⟩
    | .ok _ => ⟨true, false⟩

/-! ### Batch scan (`btc_etl.process_existing_files`, sequential mode) -/

/-- Per-file record of what the scan loop did. -/
inductive ScanItem where
  | processed (p : String) (r : ProcResult)
  | skipped (p : String)
deriving DecidableEq

/-- The body of the scan loop in `process_existing_files`
(non-multithreaded branch; the multithreaded branch runs the identical
`get_redis_connection`/`is_processed` sequence on the submitting thread).
`fileOutcome` gives each file's `process_file_data` result.  The loop
itself has no exception handler: a raise from `get_redis_connection` or a
non-connection raise from `is_processed` escapes the loop and aborts the
whole scan, which `Except.error` models.  `process_file` runs on the same
thread, so its `get_redis_connection` call sees the thread-local state
left by the loop's own call. -/
def scan_loop (ping_ok : Bool) (fileOutcome : String → Except String Unit)
    (lg : LedgerState) : List String → ThreadLocal → Except RedisErr (List ScanItem)
  | [], _ => .ok []
  | file :: rest, tl =>
    match get_redis_connection ping_ok tl with
    | (.error e, _) => .error e
    | (.ok _, tl2) =>
      match is_processed lg file with
      | .error e => .error e
      | .ok true =>
        match scan_loop ping_ok fileOutcome lg rest tl2 with
        | .error e => .error e
        | .ok items => .ok (.skipped file :: items)
      | .ok false =>
        let r := process_file (fileOutcome file) (get_redis_connection ping_ok tl2).1
        match scan_loop ping_ok fileOutcome lg rest tl2 with
        | .error e => .error e
        | .ok items => .ok (.processed file r :: items)

/-- `btc_etl.process_existing_files()`: filter and sort the directory
listing, then run the scan loop starting from a fresh thread-local slot
(the scan is the main thread's first Redis use).  The
`os.path.join(DATA_DIRECTORY, file)` step is elided: paths are
represented by their basenames throughout. -/
def process_existing_files (ping_ok : Bool)
    (fileOutcome : String → Except String Unit) (entries : List String)
    (lg : LedgerState) : Except RedisErr (List ScanItem) :=
  scan_loop ping_ok fileOutcome lg (listCandidates entries) ⟨none⟩

/-! ### Live watcher callback (`btc_etl.NewFileHandler.on_created`) -/

/-- Observable outcome of one `on_created` callback.  The callback never
raises: its `try` covers everything after the directory check and its
`except Exception` logs and returns, which is why this type has no
error-propagation case. -/
inductive WatchResult where
  | ignoredDir
  | submitted
  | skippedProcessed
  | caughtError (e : RedisErr)
deriving DecidableEq

/-- `NewFileHandler.on_created(event)`: ignore directory events; otherwise
get this thread's Redis connection, consult the ledger and, when the path
is not marked, hand `process_file(filepath)` to the pool (or run it
inline).  `submitted` records that `process_file` was invoked for the
path — note no filename validation occurs on this route. -/
def on_created (is_directory : Bool) (src_path : String) (ping_ok : Bool)
    (tl : ThreadLocal) (lg : LedgerState) : WatchResult :=
  if is_directory then .ignoredDir
  else
    match get_redis_connection ping_ok tl with
    | (.error e, _) => .caughtError e
    | (.ok _, _) =>
      match is_processed lg src_path with
      | .error e => .caughtError e
      | .ok true => .skippedProcessed
      | .ok false => .submitted

/-! ### Helper lemmas -/

/-- A transform failure on any list element makes `apply_rows` fail. -/
theorem apply_rows_error_of_mem (d : Date) :
    ∀ (l : List RawRecord) (r : RawRecord), r ∈ l →
      (∃ e, transform d r = .error e) → ∃ e, apply_rows d l = .error e := by
  intro l
  induction l with
  | nil => intro r hr; cases hr
  | cons a rest ih =>
    intro r hr he
    cases hr with
    | head =>
      obtain ⟨e, he⟩ := he
      exact ⟨e, by simp [apply_rows, he]⟩
    | tail _ hmem =>
      cases ha : transform d a with
      | error e => exact ⟨e, by simp [apply_rows, ha]⟩
      | ok row =>
        obtain ⟨e, he2⟩ := ih r hmem he
        exact ⟨e, by simp [apply_rows, ha, he2]⟩

/-- Every path the scan loop records as processed came from its input
file list. -/
theorem scan_loop_paths (ping_ok : Bool) (fo : String → Except String Unit)
    (lg : LedgerState) :
    ∀ (files : List String) (tl : ThreadLocal) (items : List ScanItem),
      scan_loop ping_ok fo lg files tl = .ok items →
      ∀ p r, ScanItem.processed p r ∈ items → p ∈ files := by
  intro files
  induction files with
  | nil =>
    intro tl items h p r hmem
    simp only [scan_loop] at h
    cases h; cases hmem
  | cons file rest ih =>
    intro tl items h p r hmem
    simp only [scan_loop] at h
    cases hconn : get_redis_connection ping_ok tl with
    | mk res tl2 =>
      simp only [hconn] at h
      cases res with
      | error e => cases h
      | ok c =>
        cases hproc : is_processed lg file with
        | error e => simp only [hproc] at h; exact Except.noConfusion h
        | ok b =>
          simp only [hproc] at h
          cases b with
          | true =>
            cases hrec : scan_loop ping_ok fo lg rest tl2 with
            | error e => simp only [hrec] at h; exact Except.noConfusion h
            | ok its =>
              simp only [hrec] at h
              cases h
              cases hmem with
              | tail _ hm => exact List.mem_cons_of_mem _ (ih tl2 its hrec p r hm)
          | false =>
            cases hrec : scan_loop ping_ok fo lg rest tl2 with
            | error e => simp only [hrec] at h; exact Except.noConfusion h
            | ok its =>
              simp only [hrec] at h
              cases h
              cases hmem with
              | head => exact List.mem_cons_self _ _
              | tail _ hm => exact List.mem_cons_of_mem _ (ih tl2 its hrec p r hm)

/-! ### Claims -/

/-- C3: the spec says `validate(name)` is true iff `name` matches
`btcusd-YYYY-MM-DD.csv` exactly, including the `.csv` suffix with nothing
else.  The code never looks past character 17: it accepts
`"btcusd-2023-10-01"`, which lacks the `.csv` suffix — and the
repository's own unit test `test_is_valid_filename` asserts this very
input is invalid.  This theorem evaluates the code at the failing
input. -/
theorem c3_suffix_unchecked :
    is_valid_filename "btcusd-2023-10-01" = true
      ∧ endsWithList "btcusd-2023-10-01".toList ".csv".toList = false
      ∧ is_valid_filename "btcusd-2023-10-01x.csv" = true := by decide

/-- C8: fail-open ledger semantics — when the remote call raises
`ConnectionError`, `is_processed` returns `False` without raising and
`mark_file_as_processed` returns without raising. -/
theorem c8_fail_open (p : String) :
    is_processed .down p = .ok false ∧ mark_file_as_processed .down p = .ok () :=
  ⟨rfl, rfl⟩

/-- C9: the fail-open catch is narrow — any exception other than
`ConnectionError` raised by the underlying `sismember`/`sadd` call
propagates unchanged out of `is_processed` and
`mark_file_as_processed`. -/
theorem c9_narrow_catch (p e : String) :
    is_processed (.failing e) p = .error (.otherError e)
      ∧ mark_file_as_processed (.failing e) p = .error (.otherError e) :=
  ⟨rfl, rfl⟩

/-- C10: `get_redis_connection` stores the connection object in the
thread-local slot before pinging, so it is cached even when the ping
fails, and any later call in the same context returns the cached object
unconditionally — no further ping, no raise from creation. -/
theorem c10_cached_before_ping (ping1 ping2 : Bool) (c : Nat) :
    (get_redis_connection ping1 ⟨none⟩).2 = ⟨some 0⟩
      ∧ get_redis_connection ping2 ⟨some c⟩ = (.ok c, ⟨some c⟩) := by
  cases ping1 <;> exact ⟨rfl, rfl⟩

/-- C1 counterexample: the claim says `markProcessed` is called iff the
read-transform-bulk-write sequence succeeded.  Here the sequence
succeeded (`process_file_data` returned normally, modelled by `.ok ()`),
but the worker thread's first `get_redis_connection()` call fails its
ping and raises, so `mark_file_as_processed` is never reached. -/
theorem c1_counterexample :
    (get_redis_connection false ⟨none⟩).1 = .error .connectionError
      ∧ (process_file (.ok ()) (get_redis_connection false ⟨none⟩).1).markCalled
          = false :=
  ⟨rfl, rfl⟩

/-- C1 (amended): `process_file` calls `mark_file_as_processed` iff the
read-transform-bulk-write sequence succeeded *and* the thread's
`get_redis_connection()` call returned a connection; in particular, when
the batch write or any earlier step fails, the mark call never happens
and the ledger entry for the path is untouched. -/
theorem c1_mark_iff_success_and_conn (po : Except String Unit)
    (co : Except RedisErr Nat) :
    (process_file po co).markCalled = true
      ↔ ((∃ u, po = .ok u) ∧ (∃ c, co = .ok c)) := by
  cases po <;> cases co <;> simp [process_file]

/-- On a file whose name parses and whose CSV has the `Time` column,
`process_file_data` is the transform of the retained rows. -/
theorem process_file_data_some (fn : String) (d : Date) (recs : List RawRecord)
    (hd : extract_date_from_filename fn = some d) :
    process_file_data fn ⟨true, recs⟩ =
      apply_rows d (recs.filter (fun r => !all_relevant_empty r)) := by
  unfold process_file_data
  rw [hd]
  rfl

/-- C2 counterexample: the claim says a ledger connection failure at
first establishment is never fatal to the whole batch scan.  With Redis
unreachable and one candidate file present, the main thread's first
`get_redis_connection()` call raises inside the scan loop, which has no
handler: the whole scan (and, uncaught in `__main__`, the process)
terminates with zero files handled. -/
theorem c2_counterexample :
    process_existing_files false (fun _ => .ok ()) ["btcusd-2023-10-01.csv"] .down
      = .error .connectionError := rfl

/-- C2 (amended): connectivity errors raised by connection establishment
are caught by the per-operation handlers in the file processor and in the
watcher callback — fatal only to that one operation — but the batch scan
loop has no such handler, so there a first-establishment failure
propagates past the ledger-client boundary and terminates the whole
scan. -/
theorem c2_containment (po : Except String Unit) (e : RedisErr) (p : String)
    (lg : LedgerState) (fo : String → Except String Unit) (entries : List String)
    (h : listCandidates entries ≠ []) :
    (process_file po (.error e)).raised = false
      ∧ on_created false p false ⟨none⟩ lg = .caughtError .connectionError
      ∧ process_existing_files false fo entries lg = .error .connectionError := by
  refine ⟨?_, rfl, ?_⟩
  · cases po <;> rfl
  · unfold process_existing_files
    cases hc : listCandidates entries with
    | nil => exact absurd hc h
    | cons f rest => rfl

/-- C2 witness: the containment statement at a concrete instantiation. -/
theorem c2_containment_witness :
    (process_file (.ok ()) (.error .connectionError)).raised = false
      ∧ on_created false "f" false ⟨none⟩ .down = .caughtError .connectionError
      ∧ process_existing_files false (fun _ => .ok ()) ["btcusd-2023-10-02.csv"] .down
          = .error .connectionError :=
  c2_containment (.ok ()) .connectionError "f" .down (fun _ => .ok ())
    ["btcusd-2023-10-02.csv"] (by decide)

/-- C4 counterexample: the claim says every path handed to
`process_file` passed filename validation, including paths from the
watcher.  But `on_created` performs no filename validation at all: a
creation event for `"random.txt"` (not a directory, ledger reachable and
empty) is submitted to `process_file` even though
`is_valid_filename "random.txt"` is false. -/
theorem c4_counterexample :
    on_created false "random.txt" true ⟨none⟩ (.up []) = .submitted
      ∧ is_valid_filename "random.txt" = false :=
  ⟨rfl, by decide⟩

/-- C4 (amended): every path the batch scan hands to `process_file`
passed Filename Codec validation (and ends in `.csv`) at discovery time;
the live watcher, by contrast, submits any non-directory path the ledger
does not list, without validating its name. -/
theorem c4_scan_validates_watcher_does_not (entries : List String)
    (fo : String → Except String Unit) (lg : LedgerState) (items : List ScanItem)
    (p q : String) (r : ProcResult)
    (h1 : process_existing_files true fo entries lg = .ok items)
    (h2 : ScanItem.processed p r ∈ items) :
    is_valid_filename p = true
      ∧ endsWithList p.toList ".csv".toList = true
      ∧ on_created false q true ⟨none⟩ (.up []) = .submitted := by
  have hp : p ∈ listCandidates entries :=
    scan_loop_paths true fo lg (listCandidates entries) ⟨none⟩ items h1 p r h2
  unfold listCandidates at hp
  have hf := (List.mem_insertionSort dateLe).mp hp
  obtain ⟨-, hpred⟩ := List.mem_filter.mp hf
  rw [Bool.and_eq_true] at hpred
  exact ⟨hpred.2, hpred.1, rfl⟩

/-- C4 witness: the amended statement at a concrete scan. -/
theorem c4_scan_validates_watcher_does_not_witness :
    is_valid_filename "btcusd-2023-10-01.csv" = true
      ∧ endsWithList "btcusd-2023-10-01.csv".toList ".csv".toList = true
      ∧ on_created false "any.txt" true ⟨none⟩ (.up []) = .submitted :=
  c4_scan_validates_watcher_does_not ["btcusd-2023-10-01.csv"] (fun _ => .ok ())
    (.up []) [.processed "btcusd-2023-10-01.csv" ⟨true, false⟩]
    "btcusd-2023-10-01.csv" "any.txt" ⟨true, false⟩ rfl (List.Mem.head _)

/-- C5: the row pipeline discards a record silently (empty output, no
error) exactly when all seven price/volume cells are empty; a record with
at least one populated cell and a parseable time yields exactly one
canonical row whose timestamp merges the file date with the parsed
time-of-day, carrying the remaining cells through unchanged (`none`
cells become nulls, never failures). -/
theorem c5_row_policy (fn : String) (d : Date) (r : RawRecord)
    (hd : extract_date_from_filename fn = some d) :
    (process_file_data fn ⟨true, [r]⟩ = .ok [] ↔ all_relevant_empty r = true)
      ∧ (∀ t tod, all_relevant_empty r = false → r.Time = some t →
          parse_time_hms t = some tod →
          process_file_data fn ⟨true, [r]⟩ =
            .ok [⟨(d, tod), r.Open, r.High, r.Low, r.Close, r.Volume_BTC,
                  r.Volume_Currency, r.Weighted_Price⟩]) := by
  have key := process_file_data_some fn d [r] hd
  constructor
  · rw [key]
    cases he : all_relevant_empty r with
    | true =>
      have hf : [r].filter (fun x => !all_relevant_empty x) = [] := by
        simp [he]
      rw [hf]
      simp [apply_rows]
    | false =>
      have hf : [r].filter (fun x => !all_relevant_empty x) = [r] := by
        simp [he]
      rw [hf]
      cases ht : transform d r with
      | error e => simp [apply_rows, ht]
      | ok row => simp [apply_rows, ht]
  · intro t tod he ht hp
    rw [key]
    have hf : [r].filter (fun x => !all_relevant_empty x) = [r] := by
      simp [he]
    rw [hf]
    simp [apply_rows, transform, ht, hp]

/-- C5 witness: a populated record produces exactly one row with the
merged timestamp; hypotheses discharged at concrete inputs. -/
theorem c5_row_policy_witness :
    process_file_data "btcusd-2023-10-01.csv"
        ⟨true, [⟨some "12:00:00", some "50000", none, none, none, none, none, none⟩]⟩
      = .ok [⟨((2023, 10, 1), (12, 0, 0)), some "50000", none, none, none, none,
             none, none⟩] :=
  (c5_row_policy "btcusd-2023-10-01.csv" (2023, 10, 1)
      ⟨some "12:00:00", some "50000", none, none, none, none, none, none⟩
      (by decide)).2 "12:00:00" (12, 0, 0) rfl rfl (by decide)

/-- C6: the transform fails exactly when the time cell is absent or does
not parse as `%H:%M:%S`; a record lacking the time cell fails regardless
of its other fields; a file whose CSV lacks the `Time` column fails
outright; and one failing retained row fails the whole file, so nothing
is handed to the batch write. -/
theorem c6_time_schema (d : Date) (r : RawRecord) :
    ((∃ e, transform d r = .error e) ↔
        (r.Time = none ∨ ∃ t, r.Time = some t ∧ parse_time_hms t = none))
      ∧ (r.Time = none → transform d r = .error "SchemaError: missing time field")
      ∧ (∀ fn cf, cf.has_time_column = false →
          ∃ e, process_file_data fn cf = .error e)
      ∧ (∀ fn d2 cf r2, extract_date_from_filename fn = some d2 →
          cf.has_time_column = true → r2 ∈ cf.records →
          all_relevant_empty r2 = false → (∃ e, transform d2 r2 = .error e) →
          ∃ e, process_file_data fn cf = .error e) := by
  refine ⟨?_, ?_, ?_, ?_⟩
  · cases htime : r.Time with
    | none => simp [transform, htime]
    | some t =>
      cases hp : parse_time_hms t with
      | none => simp [transform, htime, hp]
      | some tod => simp [transform, htime, hp]
  · intro h
    simp [transform, h]
  · intro fn cf h
    cases hfn : extract_date_from_filename fn with
    | none =>
      exact ⟨"ValueError: date does not match format", by
        simp [process_file_data, hfn]⟩
    | some d2 =>
      exact ⟨"Missing Time column in CSV file", by
        simp [process_file_data, hfn, h]⟩
  · intro fn d2 cf r2 hfn hcol hmem hne htr
    have hr2 : r2 ∈ cf.records.filter (fun x => !all_relevant_empty x) :=
      List.mem_filter.mpr ⟨hmem, by simp [hne]⟩
    obtain ⟨e, he⟩ := apply_rows_error_of_mem d2 _ r2 hr2 htr
    refine ⟨e, ?_⟩
    have hrw : process_file_data fn cf =
        apply_rows d2 (cf.records.filter (fun x => !all_relevant_empty x)) := by
      simp [process_file_data, hfn, hcol]
    rw [hrw, he]

/-- C6 witness: the schema-failure statement at concrete inputs. -/
theorem c6_time_schema_witness :
    transform (2023, 10, 1) ⟨none, some "50000", none, none, none, none, none, none⟩
        = .error "SchemaError: missing time field"
      ∧ (∃ e, process_file_data "btcusd-2023-10-01.csv" ⟨false, []⟩ = .error e)
      ∧ (∃ e, process_file_data "btcusd-2023-10-01.csv"
            ⟨true, [⟨none, some "50000", none, none, none, none, none, none⟩]⟩
          = .error e) :=
  ⟨(c6_time_schema (2023, 10, 1)
      ⟨none, some "50000", none, none, none, none, none, none⟩).2.1 rfl,
   (c6_time_schema (2023, 10, 1)
      ⟨none, some "50000", none, none, none, none, none, none⟩).2.2.1
      "btcusd-2023-10-01.csv" ⟨false, []⟩ rfl,
   (c6_time_schema (2023, 10, 1)
      ⟨none, some "50000", none, none, none, none, none, none⟩).2.2.2
      "btcusd-2023-10-01.csv" (2023, 10, 1)
      ⟨true, [⟨none, some "50000", none, none, none, none, none, none⟩]⟩
      ⟨none, some "50000", none, none, none, none, none, none⟩
      (by decide) rfl (List.Mem.head _) rfl ⟨_, rfl⟩⟩

/-- C7 counterexample: the claim says the candidate sequence contains
exactly the entries passing Filename Codec validation.  The entry
`"btcusd-2023-10-01"` passes `is_valid_filename` (the codec never checks
the suffix), yet the scanner's additional `endswith('.csv')` test
excludes it, so the candidate sequence is empty. -/
theorem c7_counterexample :
    listCandidates ["btcusd-2023-10-01"] = []
      ∧ is_valid_filename "btcusd-2023-10-01" = true := by decide

/-- C7 (amended): the candidate sequence contains exactly the directory
entries that end in `.csv` *and* pass `is_valid_filename`, silently
excluding everything else, and is ordered ascending by the embedded file
date; in particular files dated 2023-10-03, 2023-10-01, 2023-10-02 come
out as 10-01, 10-02, 10-03. -/
theorem c7_candidates_filter_sorted (entries : List String) :
    (∀ f, f ∈ listCandidates entries ↔
        (f ∈ entries
          ∧ (endsWithList f.toList ".csv".toList && is_valid_filename f) = true))
      ∧ List.Pairwise dateLe (listCandidates entries)
      ∧ listCandidates
            ["btcusd-2023-10-03.csv", "btcusd-2023-10-01.csv", "btcusd-2023-10-02.csv"]
          = ["btcusd-2023-10-01.csv", "btcusd-2023-10-02.csv",
             "btcusd-2023-10-03.csv"] := by
  refine ⟨?_, ?_, by decide⟩
  · intro f
    unfold listCandidates
    rw [List.mem_insertionSort dateLe]
    exact List.mem_filter
  · exact List.sorted_insertionSort dateLe _
